import Mathlib

/-!
# Carlytics vehicle-valuation app: formal model and verification

This file embeds the algorithmically relevant parts of the Carlytics
repository in Lean 4:

* `ValuationEngine`: the backend pricing engine.  The backend source
  (`/app/backend/server.py`) is not part of this excerpt of the repository
  (only its test log and its frontend callers are), so the engine is
  modelled from the specification's description of the algorithm.
* `CalculatorScreen`: the calculator form logic of
  `frontend/app/(tabs)/calculator.tsx` (form state, the `calculateValue`
  handler, request construction).
* `AuthContext`: the deep-link session-id extraction of
  `frontend/contexts/AuthContext.tsx` (`processAuthRedirect`), together
  with a faithful model of JavaScript's `String.prototype.split` /
  `includes` on character lists.

Theorems about the claims follow the definitions.
-/

namespace ValuationEngine

/-- Modelled from the spec: the catalog's vehicle reference record
(`brand`, `model`, `base_price`, `reference_year`, `average_mileage`,
`category`).  The backend implementation holding this data
(`/app/backend/server.py`) is not included in the source excerpt.
`base_price` is a currency-agnostic positive number, so it is a rational;
years are integers. -/
structure VehicleReference where
  brand : String
  model : String
  base_price : ℚ
  reference_year : ℤ
  average_mileage : ℚ
  category : String

/-- Modelled from the spec: the enumerated condition set
`{excellent, good, fair, poor}`. -/
inductive Condition where
  | excellent
  | good
  | fair
  | poor
deriving DecidableEq

/-- Modelled from the spec: recognising the four condition strings of the
request; any other string (e.g. `"mint"`) is invalid input. -/
def parseCondition : String → Option Condition
  | "excellent" => some Condition.excellent
  | "good" => some Condition.good
  | "fair" => some Condition.fair
  | "poor" => some Condition.poor
  | _ => none

/-- Modelled from the spec: the fixed condition multiplier table
`excellent → 1.15`, `good → 1.00`, `fair → 0.85`, `poor → 0.65`. -/
def conditionFactor : Condition → ℚ
  | Condition.excellent => 1.15
  | Condition.good => 1
  | Condition.fair => 0.85
  | Condition.poor => 0.65

/-- Modelled from the spec: cumulative age-depreciation fraction.  The
first year of age depreciates by 17.5 %, every further year depreciates
the remaining value by 12.5 %, i.e.
`1 - (1 - 0.175) * (1 - 0.125)^(age-1)` for `age ≥ 1` and `0` for
`age = 0`. -/
def depreciationFraction (age : ℕ) : ℚ :=
  if age = 0 then 0 else 1 - (1 - 0.175) * (1 - 0.125) ^ (age - 1)

/-- Modelled from the spec: the mileage impact constants, which the spec
leaves as configurable parameters (`overRatePer10k`: deduction fraction
per 10,000 km driven over the expected mileage; `underRatePer10k`: bonus
fraction per 10,000 km under; `bonusCap`: ceiling on the bonus so a
near-zero-mileage vehicle cannot be valued arbitrarily high). -/
structure MileageParams where
  overRatePer10k : ℚ
  underRatePer10k : ℚ
  bonusCap : ℚ

/-- Modelled from the spec: the expected mileage for a vehicle of the
given age is `average_mileage` scaled proportionally to the age (so the
baseline at age 0 is the minimum, 0). -/
def expectedMileage (ref : VehicleReference) (age : ℕ) : ℚ :=
  ref.average_mileage * age

/-- Modelled from the spec: signed mileage-impact fraction (positive =
deduction).  Over-driven vehicles get a proportional deduction per
10,000 km of excess; under-driven vehicles get a proportional bonus
(negative impact) floored at `-bonusCap`. -/
def mileageImpactFraction (p : MileageParams) (delta : ℚ) : ℚ :=
  if 0 < delta then p.overRatePer10k * (delta / 10000)
  else if delta < 0 then max (-p.bonusCap) (p.underRatePer10k * (delta / 10000))
  else 0

/-- Modelled from the spec: the error raised for out-of-range year,
negative mileage or an unrecognised condition value.  No partial result
accompanies an error (the result type is `Except`). -/
inductive InvalidInputError where
  | yearOutOfRange
  | negativeMileage
  | unknownCondition
deriving DecidableEq

/-- Modelled from the spec: the structured breakdown record exposing each
intermediate value of the computation. -/
structure Breakdown where
  value_after_age : ℚ
  value_after_mileage : ℚ
  value_final : ℚ

/-- Modelled from the spec: the valuation result.  `estimated_value` is
rounded once, at the end, to a whole currency unit;
`depreciation_percentage` and `mileage_impact` are reported on the 0–100
percentage scale; `market_trend` defaults to 0. -/
structure ValuationResult where
  estimated_value : ℤ
  depreciation_percentage : ℚ
  mileage_impact : ℚ
  condition_factor : ℚ
  market_trend : ℚ
  breakdown : Breakdown

/-- Modelled from the spec: the happy path of the engine after
validation.  Age depreciation, then mileage impact on the remaining
value, then the condition multiplier; the final value is clamped at zero
and only then rounded to the nearest whole unit. -/
def computeValid (p : MileageParams) (ref : VehicleReference) (age : ℕ)
    (mileage : ℤ) (cond : Condition) : ValuationResult :=
  let dep := depreciationFraction age
  let value_after_age := ref.base_price * (1 - dep)
  let delta := (mileage : ℚ) - expectedMileage ref age
  let impact := mileageImpactFraction p delta
  let value_after_mileage := value_after_age * (1 - impact)
  let factor := conditionFactor cond
  let value_final := value_after_mileage * factor
  { estimated_value := round (max 0 value_final)
    depreciation_percentage := dep * 100
    mileage_impact := impact * 100
    condition_factor := factor
    market_trend := 0
    breakdown :=
      { value_after_age := value_after_age
        value_after_mileage := value_after_mileage
        value_final := value_final } }

/-- Modelled from the spec: the engine's contract
`compute(reference, year, mileage, condition)`.  It fails with
`InvalidInputError` when `year > reference.reference_year`, when
`year < 1980`, when `mileage` is negative or when the condition string is
not one of the four enumerated values; otherwise it runs the pricing
computation on `age = reference_year - year`. -/
def compute (p : MileageParams) (ref : VehicleReference) (year : ℤ)
    (mileage : ℤ) (condition : String) : Except InvalidInputError ValuationResult :=
  if ref.reference_year < year then Except.error InvalidInputError.yearOutOfRange
  else if year < 1980 then Except.error InvalidInputError.yearOutOfRange
  else if mileage < 0 then Except.error InvalidInputError.negativeMileage
  else
    match parseCondition condition with
    | none => Except.error InvalidInputError.unknownCondition
    | some cond =>
        Except.ok (computeValid p ref (ref.reference_year - year).toNat mileage cond)

/-- Projection helper: the estimated value of a successful computation. -/
def estOf (x : Except InvalidInputError ValuationResult) : Option ℤ :=
  match x with
  | Except.ok r => some r.estimated_value
  | Except.error _ => none

/-- Projection helper: the pre-rounding final value of a successful
computation. -/
def finalOf (x : Except InvalidInputError ValuationResult) : Option ℚ :=
  match x with
  | Except.ok r => some r.breakdown.value_final
  | Except.error _ => none

/-- Helper: whether an `Except` is an error. -/
def isErr {ε α : Type} (x : Except ε α) : Bool :=
  match x with
  | Except.ok _ => false
  | Except.error _ => true

/-- A default concrete choice of the configurable mileage constants, used
for concrete witnesses: 5 % deduction per 10,000 km over, 2 % bonus per
10,000 km under, bonus capped at 10 %. -/
def defaultParams : MileageParams :=
  { overRatePer10k := 0.05, underRatePer10k := 0.02, bonusCap := 0.10 }

end ValuationEngine

namespace CalculatorScreen

/-- The `ValuationResult` interface of `calculator.tsx` (lines 21–28): the
response of `POST /api/vehicles/calculate` is consumed as a record with
exactly the six fields below.  `breakdown` is typed `any` in the source,
so it is a type parameter here. -/
structure ValuationResult (β : Type) where
  estimated_value : ℚ
  depreciation_percentage : ℚ
  mileage_impact : ℚ
  condition_factor : ℚ
  market_trend : ℚ
  breakdown : β

/-- The fixed list of condition values offered by the condition selector
of `calculator.tsx` (lines 223–228). -/
def conditionOptions : List String :=
  ["excellent", "good", "fair", "poor"]

/-- The form/result state of the calculator screen: the `useState` hooks
`selectedBrand`, `selectedModel`, `year`, `mileage`, `condition` and
`result` of `calculator.tsx` (lines 38–45). -/
structure CalculatorState (β : Type) where
  selectedBrand : String
  selectedModel : String
  year : String
  mileage : String
  condition : String
  result : Option (ValuationResult β)

/-- The initial state of the calculator screen: empty pickers and inputs,
condition `"good"`, no result. -/
def initialState (β : Type) : CalculatorState β :=
  { selectedBrand := "", selectedModel := "", year := "", mileage := "",
    condition := "good", result := none }

/-- The state updates the calculator screen can perform: the picker and
text-input `onChange` handlers (arbitrary strings), pressing one of the
four fixed condition buttons (`setCondition(opt.value)` for `opt` in the
fixed option list), storing a received valuation (`setResult`), and
`resetForm`. -/
inductive CalculatorEvent (β : Type) where
  | setBrand (v : String)
  | setModel (v : String)
  | setYear (v : String)
  | setMileage (v : String)
  | setCondition (i : Fin conditionOptions.length)
  | gotResult (r : ValuationResult β)
  | reset

/-- Applying one state update, following the handlers of
`calculator.tsx`. -/
def applyEvent {β : Type} (s : CalculatorState β) :
    CalculatorEvent β → CalculatorState β
  | CalculatorEvent.setBrand v => { s with selectedBrand := v }
  | CalculatorEvent.setModel v => { s with selectedModel := v }
  | CalculatorEvent.setYear v => { s with year := v }
  | CalculatorEvent.setMileage v => { s with mileage := v }
  | CalculatorEvent.setCondition i => { s with condition := conditionOptions.get i }
  | CalculatorEvent.gotResult r => { s with result := some r }
  | CalculatorEvent.reset =>
      { s with selectedBrand := "", selectedModel := "", year := "",
               mileage := "", condition := "good", result := none }

/-- States of the calculator screen reachable from the initial state. -/
inductive Reachable {β : Type} : CalculatorState β → Prop where
  | init : Reachable (initialState β)
  | step {s : CalculatorState β} (e : CalculatorEvent β) :
      Reachable s → Reachable (applyEvent s e)

/-- The request body `calculateValue` posts to
`/api/vehicles/calculate` (`calculator.tsx` lines 93–105), together with
the request path. -/
structure CalculateRequest where
  path : String
  brand : String
  model : String
  year : Option ℤ
  mileage : Option ℤ
  condition : String
deriving DecidableEq

/-- JavaScript's `parseInt` (radix 10) as used on the year and mileage
inputs: skip leading spaces, an optional sign, then the leading run of
decimal digits; `none` models `NaN` (no digits). -/
def parseIntJS (s : String) : Option ℤ :=
  let cs := s.toList.dropWhile (fun c => c = ' ')
  let (sign, rest) : ℤ × List Char :=
    match cs with
    | '-' :: t => (-1, t)
    | '+' :: t => (1, t)
    | t => (1, t)
  let digits := rest.takeWhile Char.isDigit
  if digits.isEmpty then none
  else some (sign * (digits.foldl (fun n c => 10 * n + (c.toNat - '0'.toNat)) 0 : ℕ))

/-- The guard and request construction of `calculateValue`
(`calculator.tsx` lines 85–105): if any of `selectedBrand`,
`selectedModel`, `year`, `mileage` is empty an alert is shown and no
request is issued (`none`); otherwise the five-field body is posted. -/
def calculateValue {β : Type} (s : CalculatorState β) : Option CalculateRequest :=
  if s.selectedBrand = "" ∨ s.selectedModel = "" ∨ s.year = "" ∨ s.mileage = "" then
    none
  else
    some { path := "/api/vehicles/calculate"
           brand := s.selectedBrand
           model := s.selectedModel
           year := parseIntJS s.year
           mileage := parseIntJS s.mileage
           condition := s.condition }

/-- One full run of `calculateValue`, with the backend's response modelled
as a function of the request: returns the request issued (if any) and the
state afterwards (`setResult(response.data)` on success, unchanged state
when the guard fails). -/
def calculateValueStep {β : Type} (s : CalculatorState β)
    (respond : CalculateRequest → ValuationResult β) :
    Option CalculateRequest × CalculatorState β :=
  match calculateValue s with
  | none => (none, s)
  | some req => (some req, { s with result := some (respond req) })

end CalculatorScreen

namespace AuthContext

/-- The `User` interface of `AuthContext.tsx` (lines 9–14). -/
structure User where
  user_id : String
  email : String
  name : String
  picture : Option String
deriving DecidableEq

/-- The auth state held by the provider: the `user` and `sessionToken`
`useState` hooks of `AuthContext.tsx` (lines 27–29). -/
structure AuthState where
  user : Option User
  sessionToken : Option String
deriving DecidableEq

/-- The first occurrence of `sep` in `s`, as JavaScript string search
does: `none` when `sep` does not occur, otherwise the part before the
first occurrence and the part after it. -/
def splitOnceAfter (sep : List Char) : List Char → Option (List Char × List Char)
  | [] => if sep.isEmpty then some ([], []) else none
  | c :: rest =>
      if sep.isPrefixOf (c :: rest) then some ([], (c :: rest).drop sep.length)
      else (splitOnceAfter sep rest).map (fun pr => (c :: pr.1, pr.2))

/-- JavaScript's `String.prototype.includes(sep)`. -/
def containsSeq (sep s : List Char) : Bool :=
  (splitOnceAfter sep s).isSome

/-- JavaScript's `s.split(sep)[0]` for a non-empty separator: the part of
`s` before the first occurrence of `sep`, or all of `s` when `sep` does
not occur. -/
def splitHead (sep s : List Char) : List Char :=
  match splitOnceAfter sep s with
  | some pr => pr.1
  | none => s

/-- JavaScript's `s.split(sep)[1]` for a non-empty separator: the segment
strictly between the first and the second occurrence of `sep` (to the end
of `s` when there is no second occurrence); `none` (`undefined`) when
`sep` does not occur at all. -/
def splitGet1 (sep s : List Char) : Option (List Char) :=
  (splitOnceAfter sep s).map (fun pr => splitHead sep pr.2)

/-- The hash-fragment marker checked first by `processAuthRedirect`. -/
def hashMarker : List Char := "#session_id=".toList

/-- The query-string marker checked second by `processAuthRedirect`. -/
def queryMarker : List Char := "?session_id=".toList

/-- The ampersand separator used to cut the extracted value. -/
def ampSep : List Char := "&".toList

/-- The session-id extraction of `processAuthRedirect`
(`AuthContext.tsx` lines 57–74): if the URL contains `"#session_id="`,
take `url.split('#session_id=')[1].split('&')[0]`; otherwise, if it
contains `"?session_id="`, the same with that marker; the session
exchange is invoked exactly when the resulting string is truthy
(non-empty).  The returned value is the session id passed to
`exchangeSessionId`. -/
def processAuthRedirect (url : String) : Option String :=
  let u := url.toList
  let sessionId : Option (List Char) :=
    if containsSeq hashMarker u then
      (splitGet1 hashMarker u).map (fun v => splitHead ampSep v)
    else if containsSeq queryMarker u then
      (splitGet1 queryMarker u).map (fun v => splitHead ampSep v)
    else none
  match sessionId with
  | some s => if s.isEmpty then none else some (String.mk s)
  | none => none

/-- One deep-link event as handled by the auth context: the session
exchange (modelled as an arbitrary state transformer, since the HTTP
call is external) runs exactly when `processAuthRedirect` extracts a
truthy session id; otherwise `user` and `sessionToken` are untouched. -/
def authRedirectStep (exchange : String → AuthState → AuthState)
    (url : String) (st : AuthState) : AuthState :=
  match processAuthRedirect url with
  | some sid => exchange sid st
  | none => st

/-- Claim C10's literal reading of the extraction: the substring after
the first marker occurrence up to the next `'&'` (no truncation at a
second marker occurrence), `'#'` form checked before the `'?'` form,
exchange invoked when the value is non-empty. -/
def claimedSessionId (url : String) : Option String :=
  let u := url.toList
  let sessionId : Option (List Char) :=
    if containsSeq hashMarker u then
      (splitOnceAfter hashMarker u).map (fun pr => splitHead ampSep pr.2)
    else if containsSeq queryMarker u then
      (splitOnceAfter queryMarker u).map (fun pr => splitHead ampSep pr.2)
    else none
  match sessionId with
  | some s => if s.isEmpty then none else some (String.mk s)
  | none => none

end AuthContext

namespace ValuationEngine

/-- Concrete catalog record used in the spec's worked example: a
1,500,000 TRY vehicle priced for 2025 with a 15,000 km/year mileage
baseline. -/
def refExample : VehicleReference :=
  { brand := "Volkswagen", model := "Golf", base_price := 1500000,
    reference_year := 2025, average_mileage := 15000, category := "hatchback" }

/-- Concrete mileage constants exhibiting the internal clamp: a 100 %
deduction per 10,000 km over the expected mileage. -/
def clampParams : MileageParams :=
  { overRatePer10k := 1, underRatePer10k := 0, bonusCap := 0 }

/-- Concrete catalog record used to exhibit the negative-value clamp. -/
def refClamp : VehicleReference :=
  { brand := "Honda", model := "Civic", base_price := 100000,
    reference_year := 2025, average_mileage := 0, category := "sedan" }

/-- Concrete catalog record used to exhibit non-monotonicity of the final
estimate in age: a 100,000 km/year mileage baseline. -/
def refHighMileage : VehicleReference :=
  { brand := "Toyota", model := "Corolla", base_price := 1000000,
    reference_year := 2025, average_mileage := 100000, category := "sedan" }

/-- Concrete catalog record with a tiny base price, exhibiting collapse
of the condition ordering under final rounding. -/
def refTiny : VehicleReference :=
  { brand := "Renault", model := "Clio", base_price := 1,
    reference_year := 2025, average_mileage := 0, category := "hatchback" }

/-- Concrete catalog record with a fractional base price, exhibiting that
the rounded estimate cannot reproduce such a base price exactly. -/
def refFractional : VehicleReference :=
  { brand := "Renault", model := "Megane", base_price := 201/2,
    reference_year := 2025, average_mileage := 15000, category := "sedan" }

/-- Unfolding characterisation of `compute`: it succeeds exactly on valid
inputs, and then equals the happy-path computation at
`age = (reference_year - year).toNat`. -/
theorem compute_eq_ok {p : MileageParams} {ref : VehicleReference}
    {year mileage : ℤ} {condition : String} {r : ValuationResult} :
    compute p ref year mileage condition = Except.ok r ↔
      year ≤ ref.reference_year ∧ 1980 ≤ year ∧ 0 ≤ mileage ∧
        ∃ cond, parseCondition condition = some cond ∧
          r = computeValid p ref (ref.reference_year - year).toNat mileage cond := by
  unfold compute
  split_ifs with h1 h2 h3
  · constructor
    · intro h; contradiction
    · rintro ⟨hy, -, -, -⟩; exact absurd hy (not_le.mpr h1)
  · constructor
    · intro h; contradiction
    · rintro ⟨-, hy, -, -⟩; exact absurd hy (not_le.mpr h2)
  · constructor
    · intro h; contradiction
    · rintro ⟨-, -, hm, -⟩; exact absurd hm (not_le.mpr h3)
  · cases hc : parseCondition condition with
    | none =>
        constructor
        · intro h; exact Except.noConfusion h
        · rintro ⟨-, -, -, cond, hcc, -⟩
          exact Option.noConfusion hcc
    | some c =>
        constructor
        · intro h
          refine ⟨not_lt.mp h1, not_lt.mp h2, not_lt.mp h3, c, rfl, ?_⟩
          exact (Except.ok.inj h).symm
        · rintro ⟨-, -, -, cond, hcc, hr⟩
          obtain rfl : c = cond := Option.some.inj hcc
          exact congrArg Except.ok hr.symm

/-- The depreciation fraction is nonnegative. -/
theorem depreciationFraction_nonneg (a : ℕ) : 0 ≤ depreciationFraction a := by
  unfold depreciationFraction
  split_ifs with h
  · exact le_refl 0
  · have hpow : ((1:ℚ) - 0.125) ^ (a - 1) ≤ 1 :=
      pow_le_one₀ (by norm_num) (by norm_num)
    nlinarith

/-- The depreciation fraction always stays strictly below 1 (i.e. below
100 %). -/
theorem depreciationFraction_lt_one (a : ℕ) : depreciationFraction a < 1 := by
  unfold depreciationFraction
  split_ifs with h
  · norm_num
  · have hpow : (0:ℚ) < (1 - 0.125) ^ (a - 1) := by positivity
    nlinarith

/-- The depreciation fraction is strictly monotone in the age. -/
theorem depreciationFraction_strict {a b : ℕ} (h : a < b) :
    depreciationFraction a < depreciationFraction b := by
  unfold depreciationFraction
  have hb : b ≠ 0 := by omega
  rcases Nat.eq_zero_or_pos a with ha | ha
  · subst ha
    rw [if_pos rfl, if_neg hb]
    have hpow : ((1:ℚ) - 0.125) ^ (b - 1) ≤ 1 :=
      pow_le_one₀ (by norm_num) (by norm_num)
    nlinarith
  · have ha' : a ≠ 0 := by omega
    rw [if_neg ha', if_neg hb]
    have hpow : ((1:ℚ) - 0.125) ^ (b - 1) < (1 - 0.125) ^ (a - 1) :=
      pow_lt_pow_right_of_lt_one₀ (by norm_num) (by norm_num) (by omega)
    nlinarith

/-- Rounding to the nearest whole unit is monotone. -/
theorem round_mono_rat {x y : ℚ} (h : x ≤ y) : round x ≤ round y := by
  rw [round_eq, round_eq]
  exact Int.floor_le_floor (by linarith)

end ValuationEngine

namespace CalculatorScreen

/-- Every state the calculator screen can reach keeps its condition value
inside the fixed four-element option list. -/
theorem reachable_condition_mem {β : Type} {s : CalculatorState β}
    (h : Reachable s) : s.condition ∈ conditionOptions := by
  induction h with
  | init => simp [initialState, conditionOptions]
  | step e hs ih =>
      cases e with
      | setBrand v => simpa [applyEvent] using ih
      | setModel v => simpa [applyEvent] using ih
      | setYear v => simpa [applyEvent] using ih
      | setMileage v => simpa [applyEvent] using ih
      | setCondition i =>
          simp only [applyEvent]
          exact conditionOptions.get_mem i.1 i.2
      | gotResult r => simpa [applyEvent] using ih
      | reset => simp [applyEvent, conditionOptions]

end CalculatorScreen

namespace AuthContext

/-- If `sep` does not occur in `s` before position `|a|` and `s`
decomposes as `a ++ sep ++ b`, then the first-occurrence search finds
exactly that decomposition. -/
theorem splitOnceAfter_of_first (sep : List Char) :
    ∀ a b : List Char,
      (∀ i, i < a.length → sep.isPrefixOf ((a ++ sep ++ b).drop i) = false) →
      splitOnceAfter sep (a ++ sep ++ b) = some (a, b) := by
  intro a
  induction a with
  | nil =>
      intro b _
      cases hsep : sep with
      | nil =>
          cases b with
          | nil => simp [splitOnceAfter]
          | cons c t => simp [splitOnceAfter]
      | cons d t =>
          rw [← hsep]
          have hpre : sep.isPrefixOf (sep ++ b) = true := by
            rw [List.isPrefixOf_iff_prefix]
            exact List.prefix_append sep b
          cases hs : sep ++ b with
          | nil =>
              exact absurd (congrArg List.length hs) (by simp [hsep])
          | cons e u =>
              rw [List.nil_append, hs, splitOnceAfter, ← hs, if_pos hpre, hs]
              rw [← hs, List.drop_left]
  | cons c a ih =>
      intro b hmin
      have h0 : sep.isPrefixOf (c :: (a ++ sep ++ b)) = false := by
        have := hmin 0 (by simp)
        simpa using this
      have hrest : ∀ i, i < a.length → sep.isPrefixOf ((a ++ sep ++ b).drop i) = false := by
        intro i hi
        have := hmin (i + 1) (by simp; omega)
        simpa using this
      have : (c :: a) ++ sep ++ b = c :: (a ++ sep ++ b) := by simp
      rw [this, splitOnceAfter, if_neg (by rw [h0]; simp), ih b hrest]
      rfl

/-- If `sep` does not occur in `s` at all, the first-occurrence search
fails. -/
theorem splitOnceAfter_of_not_contains {sep s : List Char}
    (h : containsSeq sep s = false) : splitOnceAfter sep s = none := by
  unfold containsSeq at h
  exact Option.not_isSome_iff_eq_none.mp (by simp [h])

end AuthContext

namespace ValuationEngine

/-- Rounding to nearest preserves nonnegativity. -/
theorem round_nonneg_rat {x : ℚ} (h : 0 ≤ x) : 0 ≤ round x := by
  rw [round_eq]
  exact Int.le_floor.mpr (by push_cast; linarith)

/-- The estimated value produced by the happy path is never negative:
the final value is clamped at zero before the single rounding step. -/
theorem computeValid_est_nonneg (p : MileageParams) (ref : VehicleReference)
    (age : ℕ) (mileage : ℤ) (cond : Condition) :
    0 ≤ (computeValid p ref age mileage cond).estimated_value :=
  round_nonneg_rat (le_max_left 0 _)

/-- **C1** (amended): for every successful computation the reported
depreciation percentage is `100 *` the fraction
`1 - (1 - 0.175) * (1 - 0.125)^(age-1)` (0 at age 0) at
`age = reference_year - year`, and the value after age depreciation is
`base_price * (1 - fraction)`; however, at the spec's example input
(base price 1,500,000, age 5, baseline mileage, condition good) this
yields an estimated value of 725,400, not ≈ 682,500 as claimed. -/
theorem c1_age_depreciation_formula :
    (∀ (p : MileageParams) (ref : VehicleReference) (year mileage : ℤ)
        (condition : String) (r : ValuationResult),
        compute p ref year mileage condition = Except.ok r →
        r.depreciation_percentage =
          depreciationFraction (ref.reference_year - year).toNat * 100 ∧
        r.breakdown.value_after_age =
          ref.base_price * (1 - depreciationFraction (ref.reference_year - year).toNat)) ∧
    (∀ a : ℕ, a ≠ 0 →
        depreciationFraction a = 1 - (1 - 0.175) * (1 - 0.125) ^ (a - 1)) ∧
    depreciationFraction 0 = 0 ∧
    estOf (compute defaultParams refExample 2020 75000 "good") = some 725400 := by
  refine ⟨?_, ?_, rfl, ?_⟩
  · intro p ref year mileage condition r h
    rw [compute_eq_ok] at h
    obtain ⟨-, -, -, cond, -, rfl⟩ := h
    exact ⟨by simp [computeValid], by simp [computeValid]⟩
  · intro a ha
    simp [depreciationFraction, ha]
  · simp only [compute, computeValid, estOf, refExample, defaultParams, parseCondition,
      depreciationFraction, expectedMileage, mileageImpactFraction, conditionFactor,
      show ((2025:ℤ) - 2020).toNat = 5 from rfl]
    norm_num [round_eq, Int.floor_eq_iff]

/-- **C1** counterexample: at the spec's worked example (base price
1,500,000, reference year 2025, year 2020, baseline mileage, condition
good) the engine as specified returns 725,400, which differs from the
claimed ≈ 682,500 by more than 5 %. -/
theorem c1_example_value_counterexample :
    estOf (compute defaultParams refExample 2020 75000 "good") = some 725400 ∧
    (682500 : ℤ) + 34125 < 725400 := by
  constructor
  · simp only [compute, computeValid, estOf, refExample, defaultParams, parseCondition,
      depreciationFraction, expectedMileage, mileageImpactFraction, conditionFactor,
      show ((2025:ℤ) - 2020).toNat = 5 from rfl]
    norm_num [round_eq, Int.floor_eq_iff]
  · decide

/-- **C1** witness: the amended theorem evaluated at the worked example. -/
theorem c1_age_depreciation_formula_witness :
    compute defaultParams refExample 2020 75000 "good" =
        Except.ok (computeValid defaultParams refExample 5 75000 Condition.good) ∧
    (computeValid defaultParams refExample 5 75000 Condition.good).depreciation_percentage =
        depreciationFraction (refExample.reference_year - 2020).toNat * 100 ∧
    depreciationFraction 3 = 1 - (1 - 0.175) * (1 - 0.125) ^ (3 - 1) := by
  have hok : compute defaultParams refExample 2020 75000 "good" =
      Except.ok (computeValid defaultParams refExample 5 75000 Condition.good) := by
    simp only [compute, refExample, parseCondition,
      show ((2025:ℤ) - 2020).toNat = 5 from rfl]
    norm_num
  exact ⟨hok,
    (c1_age_depreciation_formula.1 defaultParams refExample 2020 75000 "good" _ hok).1,
    c1_age_depreciation_formula.2.1 3 (by norm_num)⟩

/-- **C2**: every successful computation reports the condition factor of
the requested condition from the fixed table `excellent → 1.15`,
`good → 1.00`, `fair → 0.85`, `poor → 0.65`, and the final value before
rounding is `value_after_mileage * condition_factor`. -/
theorem c2_condition_factor_table :
    (∀ (p : MileageParams) (ref : VehicleReference) (year mileage : ℤ)
        (condition : String) (cond : Condition) (r : ValuationResult),
        parseCondition condition = some cond →
        compute p ref year mileage condition = Except.ok r →
        r.condition_factor = conditionFactor cond ∧
        r.breakdown.value_final = r.breakdown.value_after_mileage * conditionFactor cond) ∧
    conditionFactor Condition.excellent = 1.15 ∧
    conditionFactor Condition.good = 1 ∧
    conditionFactor Condition.fair = 0.85 ∧
    conditionFactor Condition.poor = 0.65 := by
  refine ⟨?_, rfl, rfl, rfl, rfl⟩
  intro p ref year mileage condition cond r hc h
  rw [compute_eq_ok] at h
  obtain ⟨-, -, -, cond2, hc2, rfl⟩ := h
  rw [hc] at hc2
  obtain rfl : cond = cond2 := Option.some.inj hc2
  exact ⟨by simp [computeValid], by simp [computeValid]⟩

/-- **C2** witness: the theorem evaluated at a concrete `fair` request. -/
theorem c2_condition_factor_table_witness :
    parseCondition "fair" = some Condition.fair ∧
    compute defaultParams refExample 2024 10000 "fair" =
      Except.ok (computeValid defaultParams refExample 1 10000 Condition.fair) ∧
    (computeValid defaultParams refExample 1 10000 Condition.fair).condition_factor =
      conditionFactor Condition.fair := by
  have hok : compute defaultParams refExample 2024 10000 "fair" =
      Except.ok (computeValid defaultParams refExample 1 10000 Condition.fair) := by
    simp only [compute, refExample, parseCondition,
      show ((2025:ℤ) - 2024).toNat = 1 from rfl]
    norm_num
  exact ⟨rfl, hok,
    (c2_condition_factor_table.1 defaultParams refExample 2024 10000 "fair"
      Condition.fair _ rfl hok).1⟩

/-- **C3**: every successful computation returns a nonnegative estimated
value; and at a concrete extreme-mileage input the internally computed
final value is negative (−900,000) yet the result is the clamped 0, not
an error. -/
theorem c3_estimated_value_nonneg :
    (∀ (p : MileageParams) (ref : VehicleReference) (year mileage : ℤ)
        (condition : String) (r : ValuationResult),
        compute p ref year mileage condition = Except.ok r →
        0 ≤ r.estimated_value) ∧
    finalOf (compute clampParams refClamp 2025 100000 "good") = some (-900000) ∧
    estOf (compute clampParams refClamp 2025 100000 "good") = some 0 := by
  refine ⟨?_, ?_, ?_⟩
  · intro p ref year mileage condition r h
    rw [compute_eq_ok] at h
    obtain ⟨-, -, -, cond, -, rfl⟩ := h
    exact computeValid_est_nonneg p ref _ mileage cond
  · simp only [compute, computeValid, finalOf, refClamp, clampParams, parseCondition,
      depreciationFraction, expectedMileage, mileageImpactFraction, conditionFactor,
      show ((2025:ℤ) - 2025).toNat = 0 from rfl]
    norm_num
  · simp only [compute, computeValid, estOf, refClamp, clampParams, parseCondition,
      depreciationFraction, expectedMileage, mileageImpactFraction, conditionFactor,
      show ((2025:ℤ) - 2025).toNat = 0 from rfl]
    norm_num [round_eq, Int.floor_eq_iff]

/-- **C3** witness: the nonnegativity theorem evaluated at the concrete
clamped input. -/
theorem c3_estimated_value_nonneg_witness :
    compute clampParams refClamp 2025 100000 "good" =
        Except.ok (computeValid clampParams refClamp 0 100000 Condition.good) ∧
    0 ≤ (computeValid clampParams refClamp 0 100000 Condition.good).estimated_value := by
  have hok : compute clampParams refClamp 2025 100000 "good" =
      Except.ok (computeValid clampParams refClamp 0 100000 Condition.good) := by
    simp only [compute, refClamp, parseCondition,
      show ((2025:ℤ) - 2025).toNat = 0 from rfl]
    norm_num
  exact ⟨hok,
    c3_estimated_value_nonneg.1 clampParams refClamp 2025 100000 "good" _ hok⟩

/-- **C4**: `compute` fails exactly when the year exceeds the reference
year, the year is below 1980, the mileage is negative, or the condition
string is not one of the four enumerated values; in particular one year
above the reference year, mileage −1, and condition `"mint"` all fail.
The `Except` result type carries no partial result alongside an error. -/
theorem c4_invalid_input_characterisation :
    (∀ (p : MileageParams) (ref : VehicleReference) (year mileage : ℤ)
        (condition : String),
        isErr (compute p ref year mileage condition) = true ↔
          (ref.reference_year < year ∨ year < 1980 ∨ mileage < 0 ∨
            parseCondition condition = none)) ∧
    isErr (compute defaultParams refExample 2026 10000 "good") = true ∧
    isErr (compute defaultParams refExample 2020 (-1) "good") = true ∧
    isErr (compute defaultParams refExample 2020 10000 "mint") = true := by
  refine ⟨?_, ?_, ?_, ?_⟩
  · intro p ref year mileage condition
    unfold compute
    split_ifs with h1 h2 h3
    · simp [isErr, h1]
    · simp [isErr, h2]
    · simp [isErr, h3]
    · cases hc : parseCondition condition with
      | none => simp [isErr, h1, h2, h3, hc]
      | some c => simp [isErr, h1, h2, h3, hc]
  · decide
  · decide
  · decide

end ValuationEngine

namespace ValuationEngine

/-- Rounding the clamped product is monotone in the (positive) factor. -/
theorem round_clamp_mul_le {v f1 f2 : ℚ} (h1 : 0 < f1) (h12 : f1 ≤ f2) :
    round (max 0 (v * f1)) ≤ round (max 0 (v * f2)) := by
  rcases le_or_lt 0 v with hv | hv
  · exact round_mono_rat (max_le_max (le_refl 0) (mul_le_mul_of_nonneg_left h12 hv))
  · have h2 : (0:ℚ) < f2 := lt_of_lt_of_le h1 h12
    have e1 : v * f1 ≤ 0 := by nlinarith
    have e2 : v * f2 ≤ 0 := by nlinarith
    rw [max_eq_left e1, max_eq_left e2]

/-- **C5** (amended): for two successful computations on the same
reference, mileage and condition, the older year (larger age) has the
strictly larger depreciation percentage, the depreciation percentage
always stays below 100, and the value after age depreciation strictly
decreases with age; the final rounded estimate, however, need not
decrease, because the mileage adjustment also depends on the age. -/
theorem c5_age_monotonicity :
    ∀ (p : MileageParams) (ref : VehicleReference) (y1 y2 mileage : ℤ)
      (condition : String) (r1 r2 : ValuationResult),
      compute p ref y1 mileage condition = Except.ok r1 →
      compute p ref y2 mileage condition = Except.ok r2 →
      y2 < y1 → 0 < ref.base_price →
      r1.depreciation_percentage < r2.depreciation_percentage ∧
      r2.depreciation_percentage < 100 ∧
      r2.breakdown.value_after_age < r1.breakdown.value_after_age := by
  intro p ref y1 y2 mileage condition r1 r2 h1 h2 hy hbase
  rw [compute_eq_ok] at h1 h2
  obtain ⟨hy1, -, -, c1, hc1, rfl⟩ := h1
  obtain ⟨hy2, -, -, c2, hc2, rfl⟩ := h2
  have hage : (ref.reference_year - y1).toNat < (ref.reference_year - y2).toNat := by
    omega
  have hdep := depreciationFraction_strict hage
  refine ⟨?_, ?_, ?_⟩
  · simp only [computeValid]
    exact mul_lt_mul_of_pos_right hdep (by norm_num)
  · simp only [computeValid]
    have := depreciationFraction_lt_one (ref.reference_year - y2).toNat
    linarith
  · simp only [computeValid]
    exact mul_lt_mul_of_pos_left (sub_lt_sub_left hdep 1) hbase

/-- **C5** counterexample: with the default mileage constants, a vehicle
with a 100,000 km/year baseline driven 200,000 km is worth 412,500 at
age 1 but 721,875 at age 2 — the estimated value *increases* with age,
refuting the claimed strict decrease. -/
theorem c5_strict_decrease_counterexample :
    estOf (compute defaultParams refHighMileage 2024 200000 "good") = some 412500 ∧
    estOf (compute defaultParams refHighMileage 2023 200000 "good") = some 721875 ∧
    ¬ (721875 : ℤ) < 412500 := by
  refine ⟨?_, ?_, by decide⟩
  · simp only [compute, computeValid, estOf, refHighMileage, defaultParams, parseCondition,
      depreciationFraction, expectedMileage, mileageImpactFraction, conditionFactor,
      show ((2025:ℤ) - 2024).toNat = 1 from rfl]
    norm_num [round_eq, Int.floor_eq_iff]
  · simp only [compute, computeValid, estOf, refHighMileage, defaultParams, parseCondition,
      depreciationFraction, expectedMileage, mileageImpactFraction, conditionFactor,
      show ((2025:ℤ) - 2023).toNat = 2 from rfl]
    norm_num [round_eq, Int.floor_eq_iff]

/-- **C5** witness: the amended theorem evaluated at ages 1 and 2 of the
worked-example vehicle. -/
theorem c5_age_monotonicity_witness :
    compute defaultParams refExample 2024 0 "good" =
        Except.ok (computeValid defaultParams refExample 1 0 Condition.good) ∧
    compute defaultParams refExample 2023 0 "good" =
        Except.ok (computeValid defaultParams refExample 2 0 Condition.good) ∧
    (2023 : ℤ) < 2024 ∧ (0:ℚ) < refExample.base_price ∧
    (computeValid defaultParams refExample 1 0 Condition.good).depreciation_percentage <
      (computeValid defaultParams refExample 2 0 Condition.good).depreciation_percentage := by
  have hok1 : compute defaultParams refExample 2024 0 "good" =
      Except.ok (computeValid defaultParams refExample 1 0 Condition.good) := by
    simp only [compute, refExample, parseCondition,
      show ((2025:ℤ) - 2024).toNat = 1 from rfl]
    norm_num
  have hok2 : compute defaultParams refExample 2023 0 "good" =
      Except.ok (computeValid defaultParams refExample 2 0 Condition.good) := by
    simp only [compute, refExample, parseCondition,
      show ((2025:ℤ) - 2023).toNat = 2 from rfl]
    norm_num
  refine ⟨hok1, hok2, by norm_num, by norm_num [refExample], ?_⟩
  exact (c5_age_monotonicity defaultParams refExample 2024 2023 0 "good" _ _ hok1 hok2
    (by norm_num) (by norm_num [refExample])).1

/-- **C6** (amended): for identical reference, year and mileage the
estimated values are ordered `poor ≤ fair ≤ good ≤ excellent`, and the
pre-rounding final values are ordered strictly whenever the common value
after the mileage adjustment is positive; after the final rounding the
ordering is weak, not strict (neighbouring conditions can round to the
same whole amount). -/
theorem c6_condition_ordering :
    ∀ (p : MileageParams) (ref : VehicleReference) (year mileage : ℤ)
      (re rg rf rp : ValuationResult),
      compute p ref year mileage "excellent" = Except.ok re →
      compute p ref year mileage "good" = Except.ok rg →
      compute p ref year mileage "fair" = Except.ok rf →
      compute p ref year mileage "poor" = Except.ok rp →
      (rp.estimated_value ≤ rf.estimated_value ∧
        rf.estimated_value ≤ rg.estimated_value ∧
        rg.estimated_value ≤ re.estimated_value) ∧
      (0 < rg.breakdown.value_after_mileage →
        rp.breakdown.value_final < rf.breakdown.value_final ∧
        rf.breakdown.value_final < rg.breakdown.value_final ∧
        rg.breakdown.value_final < re.breakdown.value_final) := by
  intro p ref year mileage re rg rf rp he hg hf hp
  rw [compute_eq_ok] at he hg hf hp
  obtain ⟨-, -, -, ce, hce, rfl⟩ := he
  obtain ⟨-, -, -, cg, hcg, rfl⟩ := hg
  obtain ⟨-, -, -, cf, hcf, rfl⟩ := hf
  obtain ⟨-, -, -, cp, hcp, rfl⟩ := hp
  obtain rfl : ce = Condition.excellent := by
    have h : parseCondition "excellent" = some Condition.excellent := rfl
    rw [h] at hce; exact (Option.some.inj hce).symm
  obtain rfl : cg = Condition.good := by
    have h : parseCondition "good" = some Condition.good := rfl
    rw [h] at hcg; exact (Option.some.inj hcg).symm
  obtain rfl : cf = Condition.fair := by
    have h : parseCondition "fair" = some Condition.fair := rfl
    rw [h] at hcf; exact (Option.some.inj hcf).symm
  obtain rfl : cp = Condition.poor := by
    have h : parseCondition "poor" = some Condition.poor := rfl
    rw [h] at hcp; exact (Option.some.inj hcp).symm
  constructor
  · refine ⟨?_, ?_, ?_⟩
    · simp only [computeValid, conditionFactor]
      exact round_clamp_mul_le (by norm_num) (by norm_num)
    · simp only [computeValid, conditionFactor]
      exact round_clamp_mul_le (by norm_num) (by norm_num)
    · simp only [computeValid, conditionFactor]
      exact round_clamp_mul_le (by norm_num) (by norm_num)
  · intro hv
    simp only [computeValid] at hv
    refine ⟨?_, ?_, ?_⟩
    · simp only [computeValid, conditionFactor]
      exact mul_lt_mul_of_pos_left (by norm_num) hv
    · simp only [computeValid, conditionFactor]
      exact mul_lt_mul_of_pos_left (by norm_num) hv
    · simp only [computeValid, conditionFactor]
      exact mul_lt_mul_of_pos_left (by norm_num) hv

/-- **C6** counterexample: for a base price of 1 at age 0 and baseline
mileage, conditions `excellent` and `good` both give the rounded
estimate 1 — the claimed *strict* ordering of estimated values fails. -/
theorem c6_strict_ordering_counterexample :
    estOf (compute defaultParams refTiny 2025 0 "excellent") = some 1 ∧
    estOf (compute defaultParams refTiny 2025 0 "good") = some 1 := by
  constructor
  · simp only [compute, computeValid, estOf, refTiny, defaultParams, parseCondition,
      depreciationFraction, expectedMileage, mileageImpactFraction, conditionFactor,
      show ((2025:ℤ) - 2025).toNat = 0 from rfl]
    norm_num [round_eq, Int.floor_eq_iff]
  · simp only [compute, computeValid, estOf, refTiny, defaultParams, parseCondition,
      depreciationFraction, expectedMileage, mileageImpactFraction, conditionFactor,
      show ((2025:ℤ) - 2025).toNat = 0 from rfl]
    norm_num [round_eq, Int.floor_eq_iff]

/-- **C6** witness: the amended theorem evaluated at a concrete input
with a positive value after the mileage adjustment. -/
theorem c6_condition_ordering_witness :
    compute defaultParams refExample 2024 10000 "excellent" =
        Except.ok (computeValid defaultParams refExample 1 10000 Condition.excellent) ∧
    compute defaultParams refExample 2024 10000 "good" =
        Except.ok (computeValid defaultParams refExample 1 10000 Condition.good) ∧
    compute defaultParams refExample 2024 10000 "fair" =
        Except.ok (computeValid defaultParams refExample 1 10000 Condition.fair) ∧
    compute defaultParams refExample 2024 10000 "poor" =
        Except.ok (computeValid defaultParams refExample 1 10000 Condition.poor) ∧
    0 < (computeValid defaultParams refExample 1 10000 Condition.good).breakdown.value_after_mileage ∧
    (computeValid defaultParams refExample 1 10000 Condition.fair).breakdown.value_final <
      (computeValid defaultParams refExample 1 10000 Condition.good).breakdown.value_final := by
  have hoke : compute defaultParams refExample 2024 10000 "excellent" =
      Except.ok (computeValid defaultParams refExample 1 10000 Condition.excellent) := by
    simp only [compute, refExample, parseCondition,
      show ((2025:ℤ) - 2024).toNat = 1 from rfl]
    norm_num
  have hokg : compute defaultParams refExample 2024 10000 "good" =
      Except.ok (computeValid defaultParams refExample 1 10000 Condition.good) := by
    simp only [compute, refExample, parseCondition,
      show ((2025:ℤ) - 2024).toNat = 1 from rfl]
    norm_num
  have hokf : compute defaultParams refExample 2024 10000 "fair" =
      Except.ok (computeValid defaultParams refExample 1 10000 Condition.fair) := by
    simp only [compute, refExample, parseCondition,
      show ((2025:ℤ) - 2024).toNat = 1 from rfl]
    norm_num
  have hokp : compute defaultParams refExample 2024 10000 "poor" =
      Except.ok (computeValid defaultParams refExample 1 10000 Condition.poor) := by
    simp only [compute, refExample, parseCondition,
      show ((2025:ℤ) - 2024).toNat = 1 from rfl]
    norm_num
  have hv : 0 < (computeValid defaultParams refExample 1 10000
      Condition.good).breakdown.value_after_mileage := by
    simp only [computeValid, refExample, defaultParams, depreciationFraction,
      expectedMileage, mileageImpactFraction]
    norm_num
  refine ⟨hoke, hokg, hokf, hokp, hv, ?_⟩
  exact ((c6_condition_ordering defaultParams refExample 2024 10000 _ _ _ _
    hoke hokg hokf hokp).2 hv).2.1

/-- At age 0 with mileage 0 (the baseline expected mileage) and condition
`good`, every stage of the computation is neutral: the result is the
(clamped, rounded) base price with zero depreciation and mileage impact
and condition factor 1. -/
theorem computeValid_age0_baseline (p : MileageParams) (ref : VehicleReference)
    (hbase : 0 ≤ ref.base_price) :
    computeValid p ref 0 0 Condition.good =
      { estimated_value := round ref.base_price, depreciation_percentage := 0,
        mileage_impact := 0, condition_factor := 1, market_trend := 0,
        breakdown := ⟨ref.base_price, ref.base_price, ref.base_price⟩ } := by
  unfold computeValid depreciationFraction expectedMileage mileageImpactFraction conditionFactor
  norm_num
  rw [max_eq_right hbase]

/-- **C7** (amended): at `year = reference_year` (age 0), mileage 0 (the
baseline expected mileage at age 0) and condition `good`, every factor is
neutral and the estimated value is the base price rounded to a whole
unit — hence exactly the base price whenever the base price is a whole
number, but not for fractional base prices. -/
theorem c7_zero_age_baseline :
    ∀ (p : MileageParams) (ref : VehicleReference) (r : ValuationResult),
      compute p ref ref.reference_year 0 "good" = Except.ok r →
      0 ≤ ref.base_price →
      r.estimated_value = round ref.base_price ∧
      (∀ n : ℤ, ref.base_price = n → r.estimated_value = n) ∧
      r.depreciation_percentage = 0 ∧
      r.mileage_impact = 0 ∧
      r.condition_factor = 1 := by
  intro p ref r h hbase
  rw [compute_eq_ok] at h
  obtain ⟨-, -, -, cond, hc, rfl⟩ := h
  obtain rfl : cond = Condition.good := by
    have h' : parseCondition "good" = some Condition.good := rfl
    rw [h'] at hc; exact (Option.some.inj hc).symm
  have hage : (ref.reference_year - ref.reference_year).toNat = 0 := by omega
  rw [hage, computeValid_age0_baseline p ref hbase]
  refine ⟨rfl, ?_, rfl, rfl, rfl⟩
  intro n hn
  simp [hn, round_intCast]

/-- **C7** counterexample: with the fractional base price 201/2 = 100.5,
the zero-age baseline request returns the rounded estimate 101, which is
not exactly the base price. -/
theorem c7_exact_base_price_counterexample :
    estOf (compute defaultParams refFractional 2025 0 "good") = some 101 ∧
    (101 : ℚ) ≠ refFractional.base_price := by
  constructor
  · simp only [compute, computeValid, estOf, refFractional, defaultParams, parseCondition,
      depreciationFraction, expectedMileage, mileageImpactFraction, conditionFactor,
      show ((2025:ℤ) - 2025).toNat = 0 from rfl]
    norm_num [round_eq, Int.floor_eq_iff]
  · norm_num [refFractional]

/-- **C7** witness: the amended theorem evaluated on the worked-example
vehicle, whose base price 1,500,000 is whole. -/
theorem c7_zero_age_baseline_witness :
    compute defaultParams refExample 2025 0 "good" =
        Except.ok (computeValid defaultParams refExample 0 0 Condition.good) ∧
    (0:ℚ) ≤ refExample.base_price ∧
    (computeValid defaultParams refExample 0 0 Condition.good).estimated_value = 1500000 := by
  have hok : compute defaultParams refExample 2025 0 "good" =
      Except.ok (computeValid defaultParams refExample 0 0 Condition.good) := by
    simp only [compute, refExample, parseCondition,
      show ((2025:ℤ) - 2025).toNat = 0 from rfl]
    norm_num
  refine ⟨hok, by norm_num [refExample], ?_⟩
  exact (c7_zero_age_baseline defaultParams refExample _ hok
    (by norm_num [refExample])).2.1 1500000 (by norm_num [refExample])

end ValuationEngine

namespace CalculatorScreen

/-- **C8**: whenever the four text fields of a reachable calculator state
are non-empty, `calculateValue` issues exactly one request to
`/api/vehicles/calculate` whose body consists of the brand and model
strings, the year and mileage runs through `parseInt`, and a condition
drawn from the four-element option list; and the response type consists
of exactly the six fields `estimated_value`, `depreciation_percentage`,
`mileage_impact`, `condition_factor`, `market_trend`, `breakdown`. -/
theorem c8_calculate_request_shape :
    ∀ (β : Type) (s : CalculatorState β),
      Reachable s →
      s.selectedBrand ≠ "" → s.selectedModel ≠ "" → s.year ≠ "" → s.mileage ≠ "" →
      calculateValue s = some
        { path := "/api/vehicles/calculate"
          brand := s.selectedBrand
          model := s.selectedModel
          year := parseIntJS s.year
          mileage := parseIntJS s.mileage
          condition := s.condition } ∧
      s.condition ∈ conditionOptions ∧
      (∀ r : ValuationResult β,
        r = ⟨r.estimated_value, r.depreciation_percentage, r.mileage_impact,
             r.condition_factor, r.market_trend, r.breakdown⟩) := by
  intro β s hreach hb hm hy hk
  refine ⟨?_, reachable_condition_mem hreach, fun r => rfl⟩
  unfold calculateValue
  rw [if_neg]
  rintro (h | h | h | h) <;> contradiction

/-- **C8** witness: the theorem evaluated at a concrete reachable state
with all fields filled in. -/
theorem c8_calculate_request_shape_witness :
    Reachable (β := Unit) ⟨"Honda", "Civic", "2020", "50000", "good", none⟩ ∧
    calculateValue (β := Unit) ⟨"Honda", "Civic", "2020", "50000", "good", none⟩ =
      some { path := "/api/vehicles/calculate", brand := "Honda", model := "Civic",
             year := parseIntJS "2020", mileage := parseIntJS "50000",
             condition := "good" } ∧
    parseIntJS "2020" = some 2020 ∧ parseIntJS "50000" = some 50000 := by
  have hreach : Reachable (β := Unit) ⟨"Honda", "Civic", "2020", "50000", "good", none⟩ := by
    have h0 := Reachable.init (β := Unit)
    have h1 := Reachable.step (CalculatorEvent.setBrand "Honda") h0
    have h2 := Reachable.step (CalculatorEvent.setModel "Civic") h1
    have h3 := Reachable.step (CalculatorEvent.setYear "2020") h2
    have h4 := Reachable.step (CalculatorEvent.setMileage "50000") h3
    exact h4
  refine ⟨hreach, ?_, by decide, by decide⟩
  exact (c8_calculate_request_shape Unit _ hreach (by decide) (by decide)
    (by decide) (by decide)).1

/-- **C9**: if any of the four text fields is empty when `calculateValue`
runs, no request is issued and the whole state — in particular the
`result` field — is left unchanged. -/
theorem c9_empty_field_no_request :
    ∀ (β : Type) (s : CalculatorState β)
      (respond : CalculateRequest → ValuationResult β),
      (s.selectedBrand = "" ∨ s.selectedModel = "" ∨ s.year = "" ∨ s.mileage = "") →
      calculateValue s = none ∧ calculateValueStep s respond = (none, s) := by
  intro β s respond h
  have hnone : calculateValue s = none := by
    unfold calculateValue
    exact if_pos h
  refine ⟨hnone, ?_⟩
  unfold calculateValueStep
  rw [hnone]

/-- **C9** witness: the theorem evaluated at the initial state (all
fields empty). -/
theorem c9_empty_field_no_request_witness :
    calculateValue (initialState Unit) = none ∧
    calculateValueStep (initialState Unit)
      (fun _ => ⟨0, 0, 0, 1, 0, ()⟩) = (none, initialState Unit) :=
  c9_empty_field_no_request Unit (initialState Unit)
    (fun _ => ⟨0, 0, 0, 1, 0, ()⟩) (Or.inl rfl)

end CalculatorScreen

namespace AuthContext

/-- **C10** (amended): `processAuthRedirect` extracts the segment of the
URL after the first `"#session_id="` (or, when that marker is absent,
the first `"?session_id="`), truncated at the next occurrence of the
same marker and at the first `'&'`; the session exchange runs exactly
when that segment is non-empty, and a URL containing neither marker
causes no exchange and leaves the auth state unchanged. -/
theorem c10_session_extraction :
    (∀ (url : String) (a b : List Char),
        url.toList = a ++ hashMarker ++ b →
        (∀ i, i < a.length →
          hashMarker.isPrefixOf ((a ++ hashMarker ++ b).drop i) = false) →
        processAuthRedirect url =
          (if (splitHead ampSep (splitHead hashMarker b)).isEmpty then none
           else some (String.mk (splitHead ampSep (splitHead hashMarker b))))) ∧
    (∀ (url : String) (a b : List Char),
        containsSeq hashMarker url.toList = false →
        url.toList = a ++ queryMarker ++ b →
        (∀ i, i < a.length →
          queryMarker.isPrefixOf ((a ++ queryMarker ++ b).drop i) = false) →
        processAuthRedirect url =
          (if (splitHead ampSep (splitHead queryMarker b)).isEmpty then none
           else some (String.mk (splitHead ampSep (splitHead queryMarker b))))) ∧
    (∀ (url : String) (st : AuthState) (exchange : String → AuthState → AuthState),
        containsSeq hashMarker url.toList = false →
        containsSeq queryMarker url.toList = false →
        processAuthRedirect url = none ∧ authRedirectStep exchange url st = st) := by
  refine ⟨?_, ?_, ?_⟩
  · intro url a b hurl hmin
    have hso : splitOnceAfter hashMarker url.toList = some (a, b) := by
      rw [hurl]; exact splitOnceAfter_of_first hashMarker a b hmin
    have hcontains : containsSeq hashMarker url.toList = true := by
      unfold containsSeq; rw [hso]; rfl
    simp only [processAuthRedirect, splitGet1, hcontains, hso, Option.map_some',
      if_true]
  · intro url a b hhash hurl hmin
    have hso : splitOnceAfter queryMarker url.toList = some (a, b) := by
      rw [hurl]; exact splitOnceAfter_of_first queryMarker a b hmin
    have hcontains : containsSeq queryMarker url.toList = true := by
      unfold containsSeq; rw [hso]; rfl
    simp only [processAuthRedirect, splitGet1, hhash, hcontains, hso,
      Option.map_some', if_true, Bool.false_eq_true, if_false]
  · intro url st exchange hhash hquery
    have hp : processAuthRedirect url = none := by
      simp only [processAuthRedirect, hhash, hquery, Bool.false_eq_true, if_false]
    exact ⟨hp, by unfold authRedirectStep; rw [hp]⟩

/-- **C10** counterexample: on a URL in which the `"#session_id="`
marker occurs twice, the code extracts only the segment up to the second
marker (`"abc"`), not the claimed substring up to the next `'&'`
(`"abc#session_id=def"`). -/
theorem c10_claimed_extraction_counterexample :
    processAuthRedirect "app://cb#session_id=abc#session_id=def" = some "abc" ∧
    claimedSessionId "app://cb#session_id=abc#session_id=def" =
      some "abc#session_id=def" ∧
    ("abc" : String) ≠ "abc#session_id=def" := by
  refine ⟨by decide, by decide, by decide⟩

/-- **C10** witness: the amended theorem evaluated on a concrete redirect
URL carrying a session id terminated by `'&'`. -/
theorem c10_session_extraction_witness :
    "cb#session_id=tok123&x".toList =
      "cb".toList ++ hashMarker ++ "tok123&x".toList ∧
    processAuthRedirect "cb#session_id=tok123&x" = some "tok123" := by
  have hdecomp : "cb#session_id=tok123&x".toList =
      "cb".toList ++ hashMarker ++ "tok123&x".toList := by decide
  have hmin : ∀ i, i < ("cb".toList).length →
      hashMarker.isPrefixOf
        (("cb".toList ++ hashMarker ++ "tok123&x".toList).drop i) = false := by
    intro i hi
    have hi2 : i < 2 := by simpa using hi
    interval_cases i <;> decide
  have h := c10_session_extraction.1 "cb#session_id=tok123&x"
    "cb".toList "tok123&x".toList hdecomp hmin
  refine ⟨hdecomp, ?_⟩
  rw [h]
  decide

end AuthContext
